import Mathlib

/-!
# WebSocket broadcast helper (`ws_helper.c`)

A shallow embedding of
`examples/protocols/http_server/ws_echo_server/src/ws_helper.c` and of its
header `ws_helper.h`, followed by theorems about the embedded functions.

* The two file-scope variables `s_current_httpd_handle` and `s_write_mutex`
  become the fields of `State`; calls that reach outside the file are written
  to `State.trace`, in the order in which they happen.
* Everything the file calls but does not define (the HTTP server, FreeRTOS,
  `fcntl`) is a field of `Env`: the functions are parameters of the model.
* C arrays are lists of slots; a slot holds `none` until it is written. An
  access outside the array, a read of a slot never written and a NULL
  dereference make the embedded function return `none`.
* `size_t` counters are natural numbers: none of them exceeds
  `WS_MAX_CLIENT_COUNT`, so no wrap-around can occur.
-/

namespace WsHelper

/-! ## Constants

`WS_MAX_CLIENT_COUNT` is defined in `ws_helper.h`. The other constants come
from headers of ESP-IDF, FreeRTOS and the C library that `ws_helper.c`
includes; they carry the values those headers give them, and the statements
below use nothing of these values except that `ESP_OK` differs from
`ESP_FAIL` and `pdTRUE` from `pdFALSE`. -/

/-- Capacity of the client arrays, `#define WS_MAX_CLIENT_COUNT 10`. -/
def WS_MAX_CLIENT_COUNT : Nat := 10

/-- Success code of `esp_err_t`. -/
def ESP_OK : Int := 0

/-- Generic failure code of `esp_err_t`. -/
def ESP_FAIL : Int := -1

/-- FreeRTOS value returned by a successful `xSemaphoreTake`. -/
def pdTRUE : Int := 1

/-- FreeRTOS value returned by `xSemaphoreTake` on timeout. -/
def pdFALSE : Int := 0

/-- Value of `errno` after an operation on a descriptor that is not open. -/
def EBADF : Int := 9

/-- Frame type tag `HTTPD_WS_TYPE_TEXT`. -/
def HTTPD_WS_TYPE_TEXT : Nat := 1

/-- Classification of a descriptor by the HTTP server (`httpd_ws_client_info_t`). -/
inductive httpd_ws_client_info_t where
  | HTTPD_WS_CLIENT_INVALID
  | HTTPD_WS_CLIENT_HTTP
  | HTTPD_WS_CLIENT_WEBSOCKET
  deriving DecidableEq, Repr

/-- The frame handed to the transport (`httpd_ws_frame_t`); `payload` is the
pointed-to byte string, `none` for a NULL pointer. -/
structure httpd_ws_frame_t where
  final : Bool
  fragmented : Bool
  type : Nat
  payload : Option (List Nat)
  len : Nat
  deriving DecidableEq, Repr

/-! ## Observable events -/

/-- The five log statements of the file. -/
inductive LogMsg where
  | httpd_ptr_null
  | client_list_failed
  | send_failed (fd : Int)
  | mutex_timeout
  | str_null
  deriving DecidableEq, Repr

/-- One call that leaves the file. -/
inductive Event where
  /-- An `ESP_LOGW` / `ESP_LOGE` statement. -/
  | log (msg : LogMsg)
  /-- A `httpd_get_client_list (hd, &count, fds)` with `count = cap` on entry. -/
  | client_list (hd : Nat) (cap : Nat)
  /-- A `xSemaphoreTake (m, ticks)` and the value it returned. -/
  | take (m : Nat) (ticks : Nat) (ret : Int)
  /-- A `httpd_ws_send_frame_async (hd, fd, &frame)` and the value it returned. -/
  | send (hd : Nat) (fd : Int) (frame : httpd_ws_frame_t) (err : Int)
  /-- A `vTaskDelay (ticks)`. -/
  | delay (ticks : Nat)
  /-- A `xSemaphoreGive (m)`. -/
  | give (m : Nat)
  /-- A `xSemaphoreCreateMutex ()` and the handle it returned (`none` is NULL). -/
  | create_mutex (ret : Option Nat)
  deriving DecidableEq, Repr

/-- Recipient of a send, `none` for any other event. -/
def Event.sendTarget : Event → Option Int
  | .send _ fd _ _ => some fd
  | _ => none

/-- The event is a send that returned `ESP_OK`. -/
def Event.isOkSend : Event → Bool
  | .send _ _ _ err => decide (err = ESP_OK)
  | _ => false

/-- The event is a send that returned something other than `ESP_OK`. -/
def Event.isFailedSend : Event → Bool
  | .send _ _ _ err => decide (err ≠ ESP_OK)
  | _ => false

/-- The event is a send. -/
def Event.isSend : Event → Bool
  | .send _ _ _ _ => true
  | _ => false

/-- The event is a successful or unsuccessful `xSemaphoreTake`. -/
def Event.isTake : Event → Bool
  | .take _ _ _ => true
  | _ => false

/-- The event is a `xSemaphoreGive`. -/
def Event.isGive : Event → Bool
  | .give _ => true
  | _ => false

/-- The event is a registry query `httpd_get_client_list`. -/
def Event.isClientList : Event → Bool
  | .client_list _ _ => true
  | _ => false

/-- The event is a `xSemaphoreCreateMutex`. -/
def Event.isCreate : Event → Bool
  | .create_mutex _ => true
  | _ => false

/-- Recipients of the sends of a trace, in the order of the sends. -/
def send_targets (tr : List Event) : List Int := tr.filterMap Event.sendTarget

/-- Number of sends of a trace. -/
def sends (tr : List Event) : Nat := tr.countP Event.isSend

/-- Number of sends of a trace that returned `ESP_OK`. -/
def ok_sends (tr : List Event) : Nat := tr.countP Event.isOkSend

/-- Number of sends of a trace that did not return `ESP_OK`. -/
def failed_sends (tr : List Event) : Nat := tr.countP Event.isFailedSend

/-- Number of `xSemaphoreGive` calls of a trace. -/
def gives (tr : List Event) : Nat := tr.countP Event.isGive

/-- Number of `xSemaphoreTake` calls of a trace. -/
def takes (tr : List Event) : Nat := tr.countP Event.isTake

/-- Number of registry queries `httpd_get_client_list` of a trace. -/
def queries (tr : List Event) : Nat := tr.countP Event.isClientList

/-- Number of `xSemaphoreCreateMutex` calls of a trace. -/
def creates (tr : List Event) : Nat := tr.countP Event.isCreate

/-! ## Environment and state -/

/-- The functions `ws_helper.c` calls and does not define. A pointer
(`httpd_handle_t*`, `httpd_req_t*`, `SemaphoreHandle_t`) is a natural number
naming the object it points to.

* `deref_handle p` is `*p` for a `httpd_handle_t* p`;
* `httpd_get_client_list hd cap` gives the return code and the descriptors
  the server stored in the caller's array, their number being the value left
  in `*fds`;
* `fcntl_getfd fd` gives the return value of `fcntl (fd, F_GETFD)` and the
  value of `errno` after the call;
* `httpd_ws_send_frame_async k hd fd frame` is the return code of the send
  primitive at its `k`-th call (counted from 0 over the whole trace), so
  that two sends to the same descriptor may differ in outcome;
* `xSemaphoreCreateMutex k` is the result of the `k`-th creation of a mutex,
  `none` when FreeRTOS has no memory left for it;
* `pdMS_TO_TICKS ms` converts milliseconds into ticks. -/
structure Env where
  deref_handle : Nat → Nat
  httpd_get_client_list : Nat → Nat → Int × List Int
  httpd_ws_get_fd_info : Nat → Int → httpd_ws_client_info_t
  fcntl_getfd : Int → Int × Int
  httpd_req_to_sockfd : Nat → Int
  xSemaphoreTake : Nat → Nat → Int
  httpd_ws_send_frame_async : Nat → Nat → Int → httpd_ws_frame_t → Int
  xSemaphoreCreateMutex : Nat → Option Nat
  pdMS_TO_TICKS : Nat → Nat

/-- The file-scope variables of `ws_helper.c` (`none` is NULL) and the calls
made so far, oldest first. -/
structure State where
  s_current_httpd_handle : Option Nat
  s_write_mutex : Option Nat
  trace : List Event
  deriving DecidableEq, Repr

/-- The state after one more external call. -/
def State.emit (st : State) (e : Event) : State :=
  State.mk st.s_current_httpd_handle st.s_write_mutex (st.trace ++ [e])

/-! ## The functions of `ws_helper.c` -/

/-- Embedding of `fd_is_valid`:
`fcntl (fd, F_GETFD) != -1 || errno != EBADF`. -/
def fd_is_valid (env : Env) (fd : Int) : Bool :=
  (env.fcntl_getfd fd).1 != -1 || (env.fcntl_getfd fd).2 != EBADF

/-- The loop of `ws_get_clients`, `for (i = 0; i < httpClientCount; i++)`,
with `n` iterations left. `httpClientFds` has `WS_MAX_CLIENT_COUNT` slots of
which the server filled the leading ones; `out_fds` is the caller's array,
`none` for a NULL pointer. -/
def ws_get_clients_loop (env : Env) (hd : Nat) (httpClientFds : List Int) :
    Nat → Nat → Nat → Option (List (Option Int)) → Option (Nat × Option (List (Option Int)))
  | 0, _, websocketCount, out_fds => some (websocketCount, out_fds)
  | n + 1, i, websocketCount, out_fds =>
    if i < WS_MAX_CLIENT_COUNT then
      match httpClientFds[i]? with
      | none => none
      | some fd =>
        if env.httpd_ws_get_fd_info hd fd = httpd_ws_client_info_t.HTTPD_WS_CLIENT_WEBSOCKET
            && fd_is_valid env fd then
          match out_fds with
          | none => ws_get_clients_loop env hd httpClientFds n (i + 1) (websocketCount + 1) none
          | some a =>
            if websocketCount < a.length then
              ws_get_clients_loop env hd httpClientFds n (i + 1) (websocketCount + 1)
                (some (a.set websocketCount (some fd)))
            else none
        else ws_get_clients_loop env hd httpClientFds n (i + 1) websocketCount out_fds
    else none

/-- Embedding of `ws_get_clients`: the count returned and the caller's array
after the call, together with the new state. -/
def ws_get_clients (env : Env) (st : State) (out_fds : Option (List (Option Int))) :
    Option ((Nat × Option (List (Option Int))) × State) :=
  match st.s_current_httpd_handle with
  | none => some ((0, out_fds), st.emit (Event.log LogMsg.httpd_ptr_null))
  | some p =>
    let hd := env.deref_handle p
    let reply := env.httpd_get_client_list hd WS_MAX_CLIENT_COUNT
    let st1 := st.emit (Event.client_list hd WS_MAX_CLIENT_COUNT)
    if reply.1 = ESP_OK then
      match ws_get_clients_loop env hd reply.2 reply.2.length 0 0 out_fds with
      | none => none
      | some r => some (r, st1)
    else some ((0, out_fds), st1.emit (Event.log LogMsg.client_list_failed))

/-- The send loop of `ws_broadcast_frame`, `for (i = 0; i < ws_count; i++)`,
with `n` iterations left. -/
def ws_broadcast_frame_loop (env : Env) (frame : httpd_ws_frame_t)
    (fds : List (Option Int)) (req_fd : Int) :
    Nat → Nat → Nat → State → Option (Nat × State)
  | 0, _, successes, st => some (successes, st)
  | n + 1, i, successes, st =>
    if i < WS_MAX_CLIENT_COUNT then
      match fds[i]? with
      | some (some fd) =>
        if fd = req_fd then
          ws_broadcast_frame_loop env frame fds req_fd n (i + 1) successes st
        else
          match st.s_current_httpd_handle with
          | none => none
          | some p =>
            let hd := env.deref_handle p
            let err := env.httpd_ws_send_frame_async (sends st.trace) hd fd frame
            let st1 := (st.emit (Event.send hd fd frame err)).emit (Event.delay 1)
            if err = ESP_OK then
              ws_broadcast_frame_loop env frame fds req_fd n (i + 1) (successes + 1) st1
            else
              ws_broadcast_frame_loop env frame fds req_fd n (i + 1) successes
                (st1.emit (Event.log (LogMsg.send_failed fd)))
      | _ => none
    else none

/-- Embedding of `ws_broadcast_frame` (compiled with `USE_MUTEX`); `req` is
`none` for a NULL request. The local array `fds` starts with ten slots never
written; `ws_get_clients` is handed a pointer to it, so the array comes back
non-NULL and the second case below is never taken. The local `err` is
assigned by every send before it is read. -/
def ws_broadcast_frame (env : Env) (st : State) (req : Option Nat)
    (frame : httpd_ws_frame_t) : Option (Nat × State) :=
  match ws_get_clients env st (some (List.replicate WS_MAX_CLIENT_COUNT none)) with
  | none => none
  | some ((_, none), _) => none
  | some ((ws_count, some fds), st1) =>
    let req_fd : Int :=
      match req with
      | none => -1
      | some r => env.httpd_req_to_sockfd r
    match st1.s_write_mutex with
    | none => some (0, st1.emit (Event.log LogMsg.mutex_timeout))
    | some m =>
      let ticks := env.pdMS_TO_TICKS 1000
      let ret := env.xSemaphoreTake m ticks
      let st2 := st1.emit (Event.take m ticks ret)
      if ret = pdTRUE then
        match ws_broadcast_frame_loop env frame fds req_fd ws_count 0 0 st2 with
        | none => none
        | some (successes, st3) =>
          match st3.s_write_mutex with
          | none => none
          | some m3 => some (successes, st3.emit (Event.give m3))
      else some (0, st2.emit (Event.log LogMsg.mutex_timeout))

/-- The function `strlen`: the number of bytes before the first zero byte. -/
def strlen (s : List Nat) : Nat := (s.takeWhile (fun b => b != 0)).length

/-- Embedding of `ws_broadcast_str`; `str` is `none` for a NULL pointer. -/
def ws_broadcast_str (env : Env) (st : State) (req : Option Nat)
    (str : Option (List Nat)) : Option (Nat × State) :=
  match str with
  | none => some (0, st.emit (Event.log LogMsg.str_null))
  | some s =>
    if strlen s = 0 then some (0, st.emit (Event.log LogMsg.str_null))
    else
      ws_broadcast_frame env st req
        (httpd_ws_frame_t.mk false false HTTPD_WS_TYPE_TEXT (some s) (strlen s))

/-- Embedding of `ws_helper_init`: the return code and the new state. -/
def ws_helper_init (env : Env) (st : State) (handle : Option Nat) : Int × State :=
  let created := env.xSemaphoreCreateMutex (creates st.trace)
  (ESP_OK, State.mk handle created (st.trace ++ [Event.create_mutex created]))

/-! ## Vocabulary of the statements -/

/-- The candidates of `L` that `ws_get_clients` keeps: classified as a
WebSocket connection by the server and passing `fd_is_valid`. -/
def eligible (env : Env) (hd : Nat) (L : List Int) : List Int :=
  L.filter (fun fd =>
    env.httpd_ws_get_fd_info hd fd = httpd_ws_client_info_t.HTTPD_WS_CLIENT_WEBSOCKET
      && fd_is_valid env fd)

/-- An array whose leading slots hold `xs` and whose other slots are those
of `a`. -/
def filled (xs : List Int) (a : List (Option Int)) : List (Option Int) :=
  xs.map some ++ a.drop xs.length

/-- The answer of the server to the registry query that `ws_get_clients`
makes when the stored handle pointer is `p`. -/
def registry_reply (env : Env) (p : Nat) : Int × List Int :=
  env.httpd_get_client_list (env.deref_handle p) WS_MAX_CLIENT_COUNT

/-- The recipients one broadcast works on: the eligible candidates of the
registry reply; nobody when no handle is stored or when the query fails. -/
def snapshot (env : Env) (st : State) : List Int :=
  match st.s_current_httpd_handle with
  | none => []
  | some p =>
    if (registry_reply env p).1 = ESP_OK then
      eligible env (env.deref_handle p) (registry_reply env p).2
    else []

/-- The server honours the capacity it is given: a successful registry query
reports at most `WS_MAX_CLIENT_COUNT` descriptors. -/
def registry_in_bounds (env : Env) (st : State) : Prop :=
  ∀ p, st.s_current_httpd_handle = some p → (registry_reply env p).1 = ESP_OK →
    (registry_reply env p).2.length ≤ WS_MAX_CLIENT_COUNT

/-- The handle `*s_current_httpd_handle` (0 when the pointer is NULL). -/
def current_hd (env : Env) (st : State) : Nat :=
  match st.s_current_httpd_handle with
  | none => 0
  | some p => env.deref_handle p

/-- The originator's descriptor `req_fd` computed by `ws_broadcast_frame`. -/
def originator_fd (env : Env) (req : Option Nat) : Int :=
  match req with
  | none => -1
  | some r => env.httpd_req_to_sockfd r

/-- The mutex the broadcast holds during its send loop, if it got one. -/
def acquired (env : Env) (st : State) : Option Nat :=
  match st.s_write_mutex with
  | none => none
  | some m => if env.xSemaphoreTake m (env.pdMS_TO_TICKS 1000) = pdTRUE then some m else none

/-- The calls `ws_get_clients` is expected to make. -/
def query_events (env : Env) (st : State) : List Event :=
  match st.s_current_httpd_handle with
  | none => [Event.log LogMsg.httpd_ptr_null]
  | some p =>
    if (registry_reply env p).1 = ESP_OK then
      [Event.client_list (env.deref_handle p) WS_MAX_CLIENT_COUNT]
    else
      [Event.client_list (env.deref_handle p) WS_MAX_CLIENT_COUNT,
       Event.log LogMsg.client_list_failed]

/-- The calls the send loop is expected to make for the recipients `xs` when
`k` sends precede it. -/
def loop_events (env : Env) (hd : Nat) (frame : httpd_ws_frame_t) (req_fd : Int) :
    List Int → Nat → List Event
  | [], _ => []
  | fd :: xs, k =>
    if fd = req_fd then loop_events env hd frame req_fd xs k
    else
      Event.send hd fd frame (env.httpd_ws_send_frame_async k hd fd frame) ::
        Event.delay 1 ::
          (if env.httpd_ws_send_frame_async k hd fd frame = ESP_OK then
            loop_events env hd frame req_fd xs (k + 1)
          else
            Event.log (LogMsg.send_failed fd) :: loop_events env hd frame req_fd xs (k + 1))

/-- The calls `ws_broadcast_frame` is expected to make after the registry
query. -/
def locked_events (env : Env) (st : State) (req : Option Nat) (frame : httpd_ws_frame_t) :
    List Event :=
  match st.s_write_mutex with
  | none => [Event.log LogMsg.mutex_timeout]
  | some m =>
    if env.xSemaphoreTake m (env.pdMS_TO_TICKS 1000) = pdTRUE then
      Event.take m (env.pdMS_TO_TICKS 1000) (env.xSemaphoreTake m (env.pdMS_TO_TICKS 1000)) ::
        (loop_events env (current_hd env st) frame (originator_fd env req) (snapshot env st)
          (sends st.trace) ++ [Event.give m])
    else
      [Event.take m (env.pdMS_TO_TICKS 1000) (env.xSemaphoreTake m (env.pdMS_TO_TICKS 1000)),
       Event.log LogMsg.mutex_timeout]

/-- The value `ws_broadcast_frame` is expected to return. -/
def expected_successes (env : Env) (st : State) (req : Option Nat) (frame : httpd_ws_frame_t) :
    Nat :=
  match st.s_write_mutex with
  | none => 0
  | some m =>
    if env.xSemaphoreTake m (env.pdMS_TO_TICKS 1000) = pdTRUE then
      ok_sends (loop_events env (current_hd env st) frame (originator_fd env req)
        (snapshot env st) (sends st.trace))
    else 0

/-- The frame `ws_broadcast_str` builds for the string `s`. -/
def text_frame (s : List Nat) : httpd_ws_frame_t :=
  httpd_ws_frame_t.mk false false HTTPD_WS_TYPE_TEXT (some s) (strlen s)

/-- The event touches no handle other than `*handle` and no mutex other
than `mutex`: a send or a registry query goes through `*handle`, a take or a
give is on `mutex`, and no mutex is created. -/
def Event.confined (env : Env) (handle : Option Nat) (mutex : Option Nat) : Event → Bool
  | .send hd _ _ _ => decide (handle.map env.deref_handle = some hd)
  | .client_list hd _ => decide (handle.map env.deref_handle = some hd)
  | .take m _ _ => decide (mutex = some m)
  | .give m => decide (mutex = some m)
  | .create_mutex _ => false
  | _ => true

/-! ## A concrete environment -/

/-- Three WebSocket clients 3, 4 and 5 and a plain HTTP client 6; descriptor
7 is reported by the server but closed; every send succeeds except the ones
to descriptor 5. -/
def demoEnv : Env :=
  Env.mk
    (fun p => p + 100)
    (fun _ _ => (ESP_OK, [3, 4, 6, 5, 7]))
    (fun _ fd => if fd = 6 then httpd_ws_client_info_t.HTTPD_WS_CLIENT_HTTP
      else httpd_ws_client_info_t.HTTPD_WS_CLIENT_WEBSOCKET)
    (fun fd => if 3 ≤ fd ∧ fd ≤ 6 then (0, 0) else (-1, EBADF))
    (fun r => (r : Int))
    (fun _ _ => pdTRUE)
    (fun _ _ fd _ => if fd = 5 then ESP_FAIL else ESP_OK)
    (fun k => some (k + 1))
    (fun ms => ms / 10)

/-- Three WebSocket clients A = 3, B = 4 and C = 5, all reachable: every send
succeeds and the mutex is free. -/
def abcEnv : Env :=
  Env.mk
    (fun p => p + 100)
    (fun _ _ => (ESP_OK, [3, 4, 5]))
    (fun _ _ => httpd_ws_client_info_t.HTTPD_WS_CLIENT_WEBSOCKET)
    (fun fd => if 0 ≤ fd then (0, 0) else (-1, EBADF))
    (fun r => (r : Int))
    (fun _ _ => pdTRUE)
    (fun _ _ _ _ => ESP_OK)
    (fun k => some (k + 1))
    (fun ms => ms / 10)

/-- The bytes of the C string "hello". -/
def hello : List Nat := [104, 101, 108, 108, 111]

/-- The clients of `abcEnv` while another task holds the write mutex: every
`xSemaphoreTake` times out. -/
def busyEnv : Env :=
  Env.mk abcEnv.deref_handle abcEnv.httpd_get_client_list abcEnv.httpd_ws_get_fd_info
    abcEnv.fcntl_getfd abcEnv.httpd_req_to_sockfd (fun _ _ => pdFALSE)
    abcEnv.httpd_ws_send_frame_async abcEnv.xSemaphoreCreateMutex abcEnv.pdMS_TO_TICKS

/-- The clients of `abcEnv` with a server whose registry query fails. -/
def failEnv : Env :=
  Env.mk abcEnv.deref_handle (fun _ _ => (ESP_FAIL, [3, 4, 5])) abcEnv.httpd_ws_get_fd_info
    abcEnv.fcntl_getfd abcEnv.httpd_req_to_sockfd abcEnv.xSemaphoreTake
    abcEnv.httpd_ws_send_frame_async abcEnv.xSemaphoreCreateMutex abcEnv.pdMS_TO_TICKS

/-- The clients of `abcEnv` on a system with no memory left for a mutex. -/
def noMemEnv : Env :=
  Env.mk abcEnv.deref_handle abcEnv.httpd_get_client_list abcEnv.httpd_ws_get_fd_info
    abcEnv.fcntl_getfd abcEnv.httpd_req_to_sockfd abcEnv.xSemaphoreTake
    abcEnv.httpd_ws_send_frame_async (fun _ => none) abcEnv.pdMS_TO_TICKS

/-- The helper before any `ws_helper_init`. -/
def freshState : State := State.mk none none []

/-- The helper after `ws_helper_init` with handle pointer 1 and mutex 1. -/
def demoState : State := State.mk (some 1) (some 1) []

/-! ## The enumeration loop -/

theorem eligible_cons (env : Env) (hd : Nat) (fd : Int) (xs : List Int) :
    eligible env hd (fd :: xs) =
      if (env.httpd_ws_get_fd_info hd fd = httpd_ws_client_info_t.HTTPD_WS_CLIENT_WEBSOCKET
          && fd_is_valid env fd) = true
      then fd :: eligible env hd xs else eligible env hd xs := by
  unfold eligible
  rw [List.filter_cons]

theorem get_loop_null (env : Env) (hd : Nat) (L : List Int)
    (hL : L.length ≤ WS_MAX_CLIENT_COUNT) :
    ∀ n i c, n + i = L.length →
      ws_get_clients_loop env hd L n i c none =
        some (c + (eligible env hd (L.drop i)).length, none) := by
  intro n
  induction n with
  | zero =>
    intro i c h
    have : L.drop i = [] := List.drop_eq_nil_of_le (by omega)
    simp [ws_get_clients_loop, this, eligible]
  | succ n ih =>
    intro i c h
    have hi : i < L.length := by omega
    have hi10 : i < WS_MAX_CLIENT_COUNT := by omega
    have hd1 : L.drop i = L[i] :: L.drop (i + 1) := List.drop_eq_getElem_cons hi
    rw [ws_get_clients_loop, if_pos hi10, List.getElem?_eq_getElem hi, hd1, eligible_cons]
    simp only []
    split
    · rw [ih (i + 1) (c + 1) (by omega)]
      simp; omega
    · rw [ih (i + 1) c (by omega)]

theorem set_take_drop (a : List (Option Int)) (c : Nat) (x : Int) (F : List Int)
    (h : c + (F.length + 1) ≤ a.length) :
    (a.set c (some x)).take (c + 1) ++ F.map some ++ (a.set c (some x)).drop (c + 1 + F.length)
      = a.take c ++ (x :: F).map some ++ a.drop (c + (x :: F).length) := by
  have hc : c < a.length := by omega
  have hp : (a.take c).length = c := by rw [List.length_take]; omega
  rw [List.set_eq_take_append_cons_drop, if_pos hc]
  have h1 : (a.take c ++ some x :: a.drop (c + 1)).take (c + 1) = a.take c ++ [some x] := by
    rw [List.take_append_eq_append_take, hp]
    simp [List.take_of_length_le, hp]
  have h2 : (a.take c ++ some x :: a.drop (c + 1)).drop (c + 1 + F.length)
      = a.drop (c + (x :: F).length) := by
    rw [List.drop_append_eq_append_drop, hp]
    have e1 : c + 1 + F.length - c = F.length + 1 := by omega
    rw [e1, List.drop_of_length_le (by omega), List.nil_append, List.drop_succ_cons, List.drop_drop]
    congr 1
    simp; omega
  rw [h1, h2]
  simp


theorem get_loop_array (env : Env) (hd : Nat) (L : List Int)
    (hL : L.length ≤ WS_MAX_CLIENT_COUNT) :
    ∀ n i c (a : List (Option Int)), n + i = L.length →
      c + (eligible env hd (L.drop i)).length ≤ a.length →
      ws_get_clients_loop env hd L n i c (some a) =
        some (c + (eligible env hd (L.drop i)).length,
          some (a.take c ++ (eligible env hd (L.drop i)).map some
            ++ a.drop (c + (eligible env hd (L.drop i)).length))) := by
  intro n
  induction n with
  | zero =>
    intro i c a h _
    have : L.drop i = [] := List.drop_eq_nil_of_le (by omega)
    simp [ws_get_clients_loop, this, eligible]
  | succ n ih =>
    intro i c a h hroom
    have hi : i < L.length := by omega
    have hi10 : i < WS_MAX_CLIENT_COUNT := by omega
    have hd1 : L.drop i = L[i] :: L.drop (i + 1) := List.drop_eq_getElem_cons hi
    rw [hd1, eligible_cons] at hroom
    rw [ws_get_clients_loop, if_pos hi10, List.getElem?_eq_getElem hi, hd1, eligible_cons]
    simp only []
    split
    · rename_i hk
      rw [if_pos hk, List.length_cons] at hroom
      have hc : c < a.length := by omega
      rw [if_pos hc, ih (i + 1) (c + 1) _ (by omega) (by rw [List.length_set]; omega)]
      rw [set_take_drop a c L[i] _ (by omega)]
      simp only [List.length_cons]
      congr 2
      omega
    · rename_i hk
      rw [if_neg hk] at hroom
      rw [ih (i + 1) c a (by omega) hroom]

theorem filled_zero (F : List Int) (a : List (Option Int)) :
    a.take 0 ++ F.map some ++ a.drop (0 + F.length) = filled F a := by
  simp [filled]

theorem eligible_length_le (env : Env) (hd : Nat) (L : List Int) :
    (eligible env hd L).length ≤ L.length := by
  unfold eligible
  exact List.length_filter_le _ _

theorem snapshot_length_le (env : Env) (st : State) (hin : registry_in_bounds env st) :
    (snapshot env st).length ≤ WS_MAX_CLIENT_COUNT := by
  unfold snapshot
  cases hp : st.s_current_httpd_handle with
  | none => simp
  | some p =>
    simp only []
    split
    · rename_i hok
      exact le_trans (eligible_length_le _ _ _) (hin p hp hok)
    · simp

theorem ws_get_clients_array (env : Env) (st : State) (a : List (Option Int))
    (hin : registry_in_bounds env st) (ha : a.length = WS_MAX_CLIENT_COUNT) :
    ws_get_clients env st (some a) =
      some (((snapshot env st).length, some (filled (snapshot env st) a)),
        State.mk st.s_current_httpd_handle st.s_write_mutex
          (st.trace ++ query_events env st)) := by
  have hlen := snapshot_length_le env st hin
  unfold ws_get_clients snapshot query_events at *
  cases hp : st.s_current_httpd_handle with
  | none => simp [State.emit, filled, hp]
  | some p =>
    rw [hp] at hlen
    simp only [] at hlen ⊢
    have hb := hin p hp
    unfold registry_reply at *
    by_cases hok : (env.httpd_get_client_list (env.deref_handle p) WS_MAX_CLIENT_COUNT).1 = ESP_OK
    · rw [if_pos hok] at hlen
      rw [if_pos hok, if_pos hok, if_pos hok]
      rw [get_loop_array env _ _ (hb hok) _ 0 0 a (by omega) (by simpa [ha] using hlen)]
      simp [State.emit, hp, filled]
    · rw [if_neg hok, if_neg hok, if_neg hok]
      simp [State.emit, filled, hp]

theorem ws_get_clients_null (env : Env) (st : State)
    (hin : registry_in_bounds env st) :
    ws_get_clients env st none =
      some (((snapshot env st).length, none),
        State.mk st.s_current_httpd_handle st.s_write_mutex
          (st.trace ++ query_events env st)) := by
  unfold ws_get_clients snapshot query_events at *
  cases hp : st.s_current_httpd_handle with
  | none => simp [State.emit, hp]
  | some p =>
    simp only []
    have hb := hin p hp
    unfold registry_reply at *
    by_cases hok : (env.httpd_get_client_list (env.deref_handle p) WS_MAX_CLIENT_COUNT).1 = ESP_OK
    · rw [if_pos hok, if_pos hok, if_pos hok]
      rw [get_loop_null env _ _ (hb hok) _ 0 0 (by omega)]
      simp [State.emit, hp]
    · rw [if_neg hok, if_neg hok, if_neg hok]
      simp [State.emit, hp]

/-! ## The send loop -/

theorem filled_getElem_some (snap : List Int) (a : List (Option Int)) (i : Nat)
    (hi : i < snap.length) : (filled snap a)[i]? = some (some snap[i]) := by
  unfold filled
  rw [List.getElem?_append_left (by simpa using hi)]
  simp [List.getElem?_eq_getElem hi]

theorem broadcast_loop_run (env : Env) (frame : httpd_ws_frame_t) (req_fd : Int)
    (snap : List Int) (a : List (Option Int)) (p : Nat)
    (hsnap : snap.length ≤ WS_MAX_CLIENT_COUNT) :
    ∀ n i successes (st : State), n + i = snap.length →
      st.s_current_httpd_handle = some p →
      ws_broadcast_frame_loop env frame (filled snap a) req_fd n i successes st =
        some (successes + ok_sends
            (loop_events env (env.deref_handle p) frame req_fd (snap.drop i) (sends st.trace)),
          State.mk st.s_current_httpd_handle st.s_write_mutex
            (st.trace ++
              loop_events env (env.deref_handle p) frame req_fd (snap.drop i)
                (sends st.trace))) := by
  intro n
  induction n with
  | zero =>
    intro i successes st h _
    have : snap.drop i = [] := List.drop_eq_nil_of_le (by omega)
    simp [ws_broadcast_frame_loop, this, loop_events, ok_sends]
  | succ n ih =>
    intro i successes st h hp
    have hi : i < snap.length := by omega
    have hi10 : i < WS_MAX_CLIENT_COUNT := by omega
    have hd1 : snap.drop i = snap[i] :: snap.drop (i + 1) := List.drop_eq_getElem_cons hi
    rw [ws_broadcast_frame_loop, if_pos hi10, filled_getElem_some snap a i hi, hd1, loop_events]
    simp only []
    by_cases hreq : snap[i] = req_fd
    · rw [if_pos hreq, if_pos hreq, ih (i + 1) successes st (by omega) hp]
    · rw [if_neg hreq, if_neg hreq, hp]
      simp only []
      by_cases hok : env.httpd_ws_send_frame_async (sends st.trace) (env.deref_handle p)
          snap[i] frame = ESP_OK
      · rw [if_pos hok, if_pos hok,
          ih (i + 1) (successes + 1) _ (by omega) (by simpa [State.emit] using hp)]
        have hs : sends ((st.emit (Event.send (env.deref_handle p) snap[i] frame
            (env.httpd_ws_send_frame_async (sends st.trace) (env.deref_handle p) snap[i]
              frame))).emit (Event.delay 1)).trace = sends st.trace + 1 := by
          simp [State.emit, sends, Event.isSend, List.countP_cons]
        rw [hs]
        generalize sends st.trace = k at hok ⊢
        simp [State.emit, ok_sends, Event.isOkSend, List.countP_cons, hok, hp]
        omega
      · rw [if_neg hok, if_neg hok,
          ih (i + 1) successes _ (by omega) (by simpa [State.emit] using hp)]
        have hs : sends (((st.emit (Event.send (env.deref_handle p) snap[i] frame
            (env.httpd_ws_send_frame_async (sends st.trace) (env.deref_handle p) snap[i]
              frame))).emit (Event.delay 1)).emit (Event.log (LogMsg.send_failed snap[i]))).trace
            = sends st.trace + 1 := by
          simp [State.emit, sends, Event.isSend, List.countP_cons]
        rw [hs]
        generalize sends st.trace = k at hok ⊢
        simp [State.emit, ok_sends, Event.isOkSend, List.countP_cons, hok, hp]

/-! ## One broadcast -/

theorem sends_query_events (env : Env) (st : State) : sends (query_events env st) = 0 := by
  unfold query_events sends
  cases st.s_current_httpd_handle with
  | none => simp [Event.isSend]
  | some p =>
    simp only []
    split <;> simp [Event.isSend]

theorem ws_broadcast_frame_run (env : Env) (st : State) (req : Option Nat)
    (frame : httpd_ws_frame_t) (hin : registry_in_bounds env st) :
    ws_broadcast_frame env st req frame =
      some (expected_successes env st req frame,
        State.mk st.s_current_httpd_handle st.s_write_mutex
          (st.trace ++ (query_events env st ++ locked_events env st req frame))) := by
  have hlen := snapshot_length_le env st hin
  have hq := sends_query_events env st
  unfold ws_broadcast_frame
  rw [ws_get_clients_array env st _ hin (by simp)]
  simp only []
  unfold expected_successes locked_events
  cases hm : st.s_write_mutex with
  | none => simp [State.emit]
  | some m =>
    simp only []
    by_cases htake : env.xSemaphoreTake m (env.pdMS_TO_TICKS 1000) = pdTRUE
    · rw [if_pos htake, if_pos htake, if_pos htake]
      cases hp : st.s_current_httpd_handle with
      | none =>
        have hsn : snapshot env st = [] := by simp [snapshot, hp]
        simp [hsn, ws_broadcast_frame_loop, State.emit, loop_events, ok_sends, htake]
      | some p =>
        have hcur : current_hd env st = env.deref_handle p := by simp [current_hd, hp]
        rw [broadcast_loop_run env frame _ (snapshot env st) _ p hlen _ 0 0 _ (by omega)
          (by simp [State.emit])]
        have hs : sends ((State.mk (some p) (some m) (st.trace ++ query_events env st)).emit
            (Event.take m (env.pdMS_TO_TICKS 1000)
              (env.xSemaphoreTake m (env.pdMS_TO_TICKS 1000)))).trace = sends st.trace := by
          have := hq
          simp only [sends] at this ⊢
          simp [State.emit, List.countP_append, this, Event.isSend]
        rw [hs, hcur]
        simp [State.emit, originator_fd]
    · rw [if_neg htake, if_neg htake, if_neg htake]
      simp [State.emit]

theorem ws_broadcast_str_run (env : Env) (st : State) (req : Option Nat) (s : List Nat)
    (hs : strlen s ≠ 0) (hin : registry_in_bounds env st) :
    ws_broadcast_str env st req (some s) =
      some (expected_successes env st req (text_frame s),
        State.mk st.s_current_httpd_handle st.s_write_mutex
          (st.trace ++ (query_events env st ++ locked_events env st req (text_frame s)))) := by
  unfold ws_broadcast_str
  simp only []
  rw [if_neg hs]
  exact ws_broadcast_frame_run env st req _ hin

/-! ## Facts about traces -/

theorem ok_add_failed (tr : List Event) : ok_sends tr + failed_sends tr = sends tr := by
  induction tr with
  | nil => rfl
  | cons e tr ih =>
    unfold ok_sends failed_sends sends at *
    rw [List.countP_cons, List.countP_cons, List.countP_cons]
    cases e <;> simp [Event.isOkSend, Event.isFailedSend, Event.isSend] <;> try omega
    split <;> simp_all <;> omega

theorem sends_eq_length_targets (tr : List Event) : sends tr = (send_targets tr).length := by
  induction tr with
  | nil => rfl
  | cons e tr ih =>
    unfold sends send_targets at *
    rw [List.countP_cons, List.filterMap_cons]
    cases e <;> simp [Event.isSend, Event.sendTarget, ih]

theorem query_events_quiet (env : Env) (st : State) :
    ok_sends (query_events env st) = 0 ∧ failed_sends (query_events env st) = 0 ∧
      send_targets (query_events env st) = [] ∧ gives (query_events env st) = 0 := by
  unfold query_events ok_sends failed_sends send_targets gives
  cases st.s_current_httpd_handle with
  | none => simp [Event.isOkSend, Event.isFailedSend, Event.sendTarget, Event.isGive]
  | some p =>
    simp only []
    split <;> simp [Event.isOkSend, Event.isFailedSend, Event.sendTarget, Event.isGive]

theorem loop_events_targets (env : Env) (hd : Nat) (frame : httpd_ws_frame_t) (req_fd : Int) :
    ∀ (xs : List Int) (k : Nat),
      send_targets (loop_events env hd frame req_fd xs k) =
        xs.filter (fun fd => decide (fd ≠ req_fd)) := by
  intro xs
  induction xs with
  | nil => intro k; rfl
  | cons fd xs ih =>
    intro k
    unfold loop_events
    by_cases h : fd = req_fd
    · rw [if_pos h, ih k, List.filter_cons]
      simp [h]
    · rw [if_neg h, List.filter_cons]
      have hk := ih (k + 1)
      unfold send_targets at *
      split <;> simp [h, Event.sendTarget, List.filterMap_cons, hk]

theorem loop_events_gives (env : Env) (hd : Nat) (frame : httpd_ws_frame_t) (req_fd : Int) :
    ∀ (xs : List Int) (k : Nat), gives (loop_events env hd frame req_fd xs k) = 0 := by
  intro xs
  induction xs with
  | nil => intro k; rfl
  | cons fd xs ih =>
    intro k
    unfold loop_events
    by_cases h : fd = req_fd
    · rw [if_pos h, ih k]
    · rw [if_neg h]
      have hk := ih (k + 1)
      unfold gives at *
      split <;> simp [Event.isGive, List.countP_cons, hk]

/-! ## The two ways through `ws_broadcast_frame` -/

theorem run_acquired (env : Env) (st : State) (req : Option Nat) (frame : httpd_ws_frame_t)
    (m : Nat) (hm : st.s_write_mutex = some m)
    (htake : env.xSemaphoreTake m (env.pdMS_TO_TICKS 1000) = pdTRUE)
    (hin : registry_in_bounds env st) :
    ∃ body : List Event,
      ws_broadcast_frame env st req frame =
        some (ok_sends (body ++ [Event.give m]),
          State.mk st.s_current_httpd_handle st.s_write_mutex
            (st.trace ++ (body ++ [Event.give m]))) ∧
      send_targets (body ++ [Event.give m]) =
        (snapshot env st).filter (fun fd => decide (fd ≠ originator_fd env req)) ∧
      gives body = 0 := by
  refine ⟨query_events env st ++
    Event.take m (env.pdMS_TO_TICKS 1000) (env.xSemaphoreTake m (env.pdMS_TO_TICKS 1000)) ::
      loop_events env (current_hd env st) frame (originator_fd env req) (snapshot env st)
        (sends st.trace), ?_, ?_, ?_⟩
  · rw [ws_broadcast_frame_run env st req frame hin]
    obtain ⟨h1, _, _, _⟩ := query_events_quiet env st
    unfold ok_sends at h1
    simp [expected_successes, locked_events, hm, htake, ok_sends, List.countP_append,
      List.countP_cons, Event.isOkSend, h1]
  · obtain ⟨_, _, h3, _⟩ := query_events_quiet env st
    have h := loop_events_targets env (current_hd env st) frame (originator_fd env req)
      (snapshot env st) (sends st.trace)
    unfold send_targets at *
    simp [List.filterMap_append, List.filterMap_cons, Event.sendTarget, h3, h]
  · obtain ⟨_, _, _, h4⟩ := query_events_quiet env st
    have h := loop_events_gives env (current_hd env st) frame (originator_fd env req)
      (snapshot env st) (sends st.trace)
    unfold gives at *
    simp [List.countP_append, List.countP_cons, Event.isGive, h4, h]

theorem run_not_acquired (env : Env) (st : State) (req : Option Nat) (frame : httpd_ws_frame_t)
    (hlock : ∀ m, st.s_write_mutex = some m →
      env.xSemaphoreTake m (env.pdMS_TO_TICKS 1000) ≠ pdTRUE)
    (hin : registry_in_bounds env st) :
    ∃ new : List Event,
      ws_broadcast_frame env st req frame =
        some (0, State.mk st.s_current_httpd_handle st.s_write_mutex (st.trace ++ new)) ∧
      sends new = 0 ∧ gives new = 0 := by
  refine ⟨query_events env st ++ locked_events env st req frame, ?_, ?_, ?_⟩
  · rw [ws_broadcast_frame_run env st req frame hin]
    unfold expected_successes
    cases hm : st.s_write_mutex with
    | none => rfl
    | some m => simp [hlock m hm]
  · have h1 := sends_query_events env st
    unfold sends locked_events at *
    cases hm : st.s_write_mutex with
    | none => simp [List.countP_append, List.countP_cons, Event.isSend, h1]
    | some m => simp [hlock m hm, List.countP_append, List.countP_cons, Event.isSend, h1]
  · obtain ⟨_, _, _, h4⟩ := query_events_quiet env st
    unfold gives locked_events at *
    cases hm : st.s_write_mutex with
    | none => simp [List.countP_append, List.countP_cons, Event.isGive, h4]
    | some m => simp [hlock m hm, List.countP_append, List.countP_cons, Event.isGive, h4]

theorem ws_broadcast_str_nonempty (env : Env) (st : State) (req : Option Nat) (s : List Nat)
    (hs : strlen s ≠ 0) :
    ws_broadcast_str env st req (some s) = ws_broadcast_frame env st req (text_frame s) := by
  unfold ws_broadcast_str
  simp only []
  rw [if_neg hs]
  rfl

theorem minus_one_not_in_snapshot (env : Env) (st : State)
    (hbad : env.fcntl_getfd (-1) = (-1, EBADF)) : (-1 : Int) ∉ snapshot env st := by
  unfold snapshot
  cases st.s_current_httpd_handle with
  | none => simp
  | some p =>
    simp only []
    split
    · simp [eligible, List.mem_filter, fd_is_valid, hbad]
    · simp

theorem filter_ne_of_not_mem (l : List Int) (x : Int) (h : x ∉ l) :
    l.filter (fun fd => decide (fd ≠ x)) = l := by
  rw [List.filter_eq_self]
  intro a ha
  have : a ≠ x := fun e => h (e ▸ ha)
  simpa using this

theorem length_filter_ne (l : List Int) (x : Int) :
    (l.filter (fun fd => decide (fd ≠ x))).length + l.count x = l.length := by
  induction l with
  | nil => rfl
  | cons a l ih =>
    rw [List.filter_cons, List.count_cons]
    by_cases h : a = x
    · simp only [h, ne_eq, not_true_eq_false, decide_False, Bool.false_eq_true, if_false,
        beq_self_eq_true, if_true, List.length_cons] at ih ⊢
      omega
    · have hb : (a == x) = false := by simpa using h
      simp only [h, ne_eq, not_false_eq_true, decide_True, if_true, hb, Bool.false_eq_true,
        if_false, List.length_cons] at ih ⊢
      omega

theorem not_mem_filter_ne (l : List Int) (x : Int) :
    x ∉ l.filter (fun fd => decide (fd ≠ x)) := by
  simp [List.mem_filter]

/-! ## The claims -/

/-- C1. For a non-empty string, when the write mutex is acquired,
`ws_broadcast_str` returns the number of sends that returned `ESP_OK`. The
sends attempted are N, the size of the snapshot, without an originator and
N - 1 with an originator that is one of the N, so the value returned is
N - K, respectively N - 1 - K, where K sends failed. The descriptor -1 is
never open (`fcntl` fails on it with `EBADF`), and an originator's descriptor
occurs once among the N because open connections have distinct descriptors. -/
theorem ws_broadcast_str_returns_ok_count (env : Env) (st : State) (req : Option Nat)
    (s : List Nat) (m : Nat)
    (hs : strlen s ≠ 0)
    (hm : st.s_write_mutex = some m)
    (htake : env.xSemaphoreTake m (env.pdMS_TO_TICKS 1000) = pdTRUE)
    (hin : registry_in_bounds env st)
    (hbad : env.fcntl_getfd (-1) = (-1, EBADF))
    (horig : ∀ r, req = some r → (snapshot env st).count (env.httpd_req_to_sockfd r) = 1) :
    ∃ new : List Event,
      ws_broadcast_str env st req (some s) =
        some (ok_sends new,
          State.mk st.s_current_httpd_handle st.s_write_mutex (st.trace ++ new)) ∧
      sends new = (snapshot env st).length - (if req.isSome then 1 else 0) ∧
      ok_sends new + failed_sends new = sends new ∧
      ok_sends new =
        (snapshot env st).length - (if req.isSome then 1 else 0) - failed_sends new := by
  obtain ⟨body, hrun, htg, _⟩ := run_acquired env st req (text_frame s) m hm htake hin
  have hsends : sends (body ++ [Event.give m]) =
      (snapshot env st).length - (if req.isSome then 1 else 0) := by
    rw [sends_eq_length_targets, htg]
    cases req with
    | none =>
      rw [filter_ne_of_not_mem _ _ (by
        simpa [originator_fd] using minus_one_not_in_snapshot env st hbad)]
      simp
    | some r =>
      have h1 := length_filter_ne (snapshot env st) (env.httpd_req_to_sockfd r)
      rw [horig r rfl] at h1
      simp only [originator_fd, Option.isSome_some, if_true]
      omega
  have hsum := ok_add_failed (body ++ [Event.give m])
  refine ⟨body ++ [Event.give m], ?_, hsends, hsum, by omega⟩
  rw [ws_broadcast_str_nonempty env st req s hs, hrun]

theorem demoEnv_in_bounds (st : State) : registry_in_bounds demoEnv st := by
  intro p _ _
  simp [registry_reply, demoEnv, WS_MAX_CLIENT_COUNT]

theorem abcEnv_in_bounds (st : State) : registry_in_bounds abcEnv st := by
  intro p _ _
  simp [registry_reply, abcEnv, WS_MAX_CLIENT_COUNT]

/-- Witness of C1: clients 3, 4 and 5, originator 3, the send to 5 fails, so
two sends are attempted and one succeeds. -/
theorem ws_broadcast_str_returns_ok_count_witness :
    snapshot demoEnv demoState = [3, 4, 5] ∧
    ∃ new : List Event,
      ws_broadcast_str demoEnv demoState (some 3) (some [104, 105]) =
        some (ok_sends new,
          State.mk demoState.s_current_httpd_handle demoState.s_write_mutex
            (demoState.trace ++ new)) ∧
      sends new = (snapshot demoEnv demoState).length - (if (some 3).isSome then 1 else 0) ∧
      ok_sends new + failed_sends new = sends new ∧
      ok_sends new =
        (snapshot demoEnv demoState).length - (if (some 3).isSome then 1 else 0)
          - failed_sends new :=
  ⟨by decide,
    ws_broadcast_str_returns_ok_count demoEnv demoState (some 3) [104, 105] 1
      (by decide) rfl (by decide) (demoEnv_in_bounds demoState) (by decide)
      (by intro r h; cases h; decide)⟩

/-- C2. Without an originator (`req == NULL`), when the write mutex is
acquired, the sends of `ws_broadcast_frame` go to the clients of the snapshot,
each once and in snapshot order, whatever the individual sends return: a
failed send neither ends the loop nor is repeated. -/
theorem ws_broadcast_frame_attempts_every_client (env : Env) (st : State)
    (frame : httpd_ws_frame_t) (m : Nat)
    (hm : st.s_write_mutex = some m)
    (htake : env.xSemaphoreTake m (env.pdMS_TO_TICKS 1000) = pdTRUE)
    (hin : registry_in_bounds env st)
    (hbad : env.fcntl_getfd (-1) = (-1, EBADF)) :
    ∃ new : List Event,
      ws_broadcast_frame env st none frame =
        some (ok_sends new,
          State.mk st.s_current_httpd_handle st.s_write_mutex (st.trace ++ new)) ∧
      send_targets new = snapshot env st ∧
      sends new = (snapshot env st).length := by
  obtain ⟨body, hrun, htg, _⟩ := run_acquired env st none frame m hm htake hin
  have h1 : send_targets (body ++ [Event.give m]) = snapshot env st := by
    rw [htg]
    exact filter_ne_of_not_mem _ _ (by
      simpa [originator_fd] using minus_one_not_in_snapshot env st hbad)
  exact ⟨body ++ [Event.give m], hrun, h1, by rw [sends_eq_length_targets, h1]⟩

/-- Witness of C2: the send to client 5 fails and is followed by no retry,
the sends to 3 and 4 before it succeed. -/
theorem ws_broadcast_frame_attempts_every_client_witness :
    snapshot demoEnv demoState = [3, 4, 5] ∧
    ∃ new : List Event,
      ws_broadcast_frame demoEnv demoState none (text_frame hello) =
        some (ok_sends new,
          State.mk demoState.s_current_httpd_handle demoState.s_write_mutex
            (demoState.trace ++ new)) ∧
      send_targets new = snapshot demoEnv demoState ∧
      sends new = (snapshot demoEnv demoState).length :=
  ⟨by decide,
    ws_broadcast_frame_attempts_every_client demoEnv demoState (text_frame hello) 1
      rfl (by decide) (demoEnv_in_bounds demoState) (by decide)⟩

/-- C3. With an originator that is one of the N clients of the snapshot,
when the write mutex is acquired, `ws_broadcast_frame` sends to the other
clients of the snapshot in snapshot order: N - 1 sends, none of them to the
originator's descriptor, and the value returned is N - 1 when none fails. -/
theorem ws_broadcast_frame_skips_originator (env : Env) (st : State) (r : Nat)
    (frame : httpd_ws_frame_t) (m : Nat)
    (hm : st.s_write_mutex = some m)
    (htake : env.xSemaphoreTake m (env.pdMS_TO_TICKS 1000) = pdTRUE)
    (hin : registry_in_bounds env st)
    (horig : (snapshot env st).count (env.httpd_req_to_sockfd r) = 1) :
    ∃ new : List Event,
      ws_broadcast_frame env st (some r) frame =
        some (ok_sends new,
          State.mk st.s_current_httpd_handle st.s_write_mutex (st.trace ++ new)) ∧
      send_targets new =
        (snapshot env st).filter (fun fd => decide (fd ≠ env.httpd_req_to_sockfd r)) ∧
      sends new = (snapshot env st).length - 1 ∧
      env.httpd_req_to_sockfd r ∉ send_targets new ∧
      (failed_sends new = 0 → ok_sends new = (snapshot env st).length - 1) := by
  obtain ⟨body, hrun, htg, _⟩ := run_acquired env st (some r) frame m hm htake hin
  have htg2 : send_targets (body ++ [Event.give m]) =
      (snapshot env st).filter (fun fd => decide (fd ≠ env.httpd_req_to_sockfd r)) := htg
  have hlen := length_filter_ne (snapshot env st) (env.httpd_req_to_sockfd r)
  rw [horig] at hlen
  have hsends : sends (body ++ [Event.give m]) = (snapshot env st).length - 1 := by
    rw [sends_eq_length_targets, htg2]
    omega
  have hsum := ok_add_failed (body ++ [Event.give m])
  refine ⟨body ++ [Event.give m], hrun, htg2, hsends, ?_, ?_⟩
  · rw [htg2]
    exact not_mem_filter_ne _ _
  · intro h0
    omega

/-- Witness of C3: clients A = 3, B = 4, C = 5, originator A, message "hello":
two sends, to B and to C, and the value returned is 2. -/
theorem ws_broadcast_frame_skips_originator_witness :
    snapshot abcEnv demoState = [3, 4, 5] ∧
    ws_broadcast_str abcEnv demoState (some 3) (some hello) =
      some (2, State.mk (some 1) (some 1)
        [Event.client_list 101 10, Event.take 1 100 1,
         Event.send 101 4 (text_frame hello) 0, Event.delay 1,
         Event.send 101 5 (text_frame hello) 0, Event.delay 1,
         Event.give 1]) ∧
    ∃ new : List Event,
      ws_broadcast_frame abcEnv demoState (some 3) (text_frame hello) =
        some (ok_sends new,
          State.mk demoState.s_current_httpd_handle demoState.s_write_mutex
            (demoState.trace ++ new)) ∧
      send_targets new =
        (snapshot abcEnv demoState).filter
          (fun fd => decide (fd ≠ abcEnv.httpd_req_to_sockfd 3)) ∧
      sends new = (snapshot abcEnv demoState).length - 1 ∧
      abcEnv.httpd_req_to_sockfd 3 ∉ send_targets new ∧
      (failed_sends new = 0 → ok_sends new = (snapshot abcEnv demoState).length - 1) :=
  ⟨by decide, by decide,
    ws_broadcast_frame_skips_originator abcEnv demoState 3 (text_frame hello) 1
      rfl (by decide) (abcEnv_in_bounds demoState) (by decide)⟩

/-- C4. When the write mutex is not acquired (it was never created, or
`xSemaphoreTake` returns something other than `pdTRUE`), `ws_broadcast_str`
returns 0 and makes no send, for every string, originator and snapshot. -/
theorem ws_broadcast_str_without_lock (env : Env) (st : State) (req : Option Nat)
    (str : Option (List Nat))
    (hlock : ∀ m, st.s_write_mutex = some m →
      env.xSemaphoreTake m (env.pdMS_TO_TICKS 1000) ≠ pdTRUE)
    (hin : registry_in_bounds env st) :
    ∃ new : List Event,
      ws_broadcast_str env st req str =
        some (0, State.mk st.s_current_httpd_handle st.s_write_mutex (st.trace ++ new)) ∧
      sends new = 0 ∧ send_targets new = [] ∧ gives new = 0 := by
  have hempty : ∃ new : List Event,
      some ((0 : Nat), st.emit (Event.log LogMsg.str_null)) =
        some (0, State.mk st.s_current_httpd_handle st.s_write_mutex (st.trace ++ new)) ∧
      sends new = 0 ∧ send_targets new = [] ∧ gives new = 0 :=
    ⟨[Event.log LogMsg.str_null], rfl, rfl, rfl, rfl⟩
  cases str with
  | none => exact hempty
  | some s =>
    by_cases hs : strlen s = 0
    · unfold ws_broadcast_str
      simp only []
      rw [if_pos hs]
      exact hempty
    · obtain ⟨new, hrun, h1, h2⟩ := run_not_acquired env st req (text_frame s) hlock hin
      refine ⟨new, ?_, h1, ?_, h2⟩
      · rw [ws_broadcast_str_nonempty env st req s hs, hrun]
      · have := sends_eq_length_targets new
        rw [h1] at this
        exact List.length_eq_zero.mp this.symm

/-- C5. For a NULL or zero-length string `ws_broadcast_str` returns 0 and
its only call is the error log: it makes no send, no registry query and
neither takes nor gives the write mutex, in every state and for every
originator. -/
theorem ws_broadcast_str_empty_message (env : Env) (st : State) (req : Option Nat)
    (str : Option (List Nat))
    (hempty : ∀ s, str = some s → strlen s = 0) :
    ∃ new : List Event,
      ws_broadcast_str env st req str =
        some (0, State.mk st.s_current_httpd_handle st.s_write_mutex (st.trace ++ new)) ∧
      new = [Event.log LogMsg.str_null] ∧
      sends new = 0 ∧ queries new = 0 ∧ takes new = 0 ∧ gives new = 0 := by
  refine ⟨[Event.log LogMsg.str_null], ?_, rfl, rfl, rfl, rfl, rfl⟩
  cases str with
  | none => rfl
  | some s =>
    unfold ws_broadcast_str
    simp only []
    rw [if_pos (hempty s rfl)]
    rfl

/-- Witness of C5: a string whose first byte is the terminator, with three
clients connected and a free mutex. -/
theorem ws_broadcast_str_empty_message_witness :
    strlen [0, 104] = 0 ∧
    ∃ new : List Event,
      ws_broadcast_str abcEnv demoState (some 3) (some [0, 104]) =
        some (0, State.mk demoState.s_current_httpd_handle demoState.s_write_mutex
          (demoState.trace ++ new)) ∧
      new = [Event.log LogMsg.str_null] ∧
      sends new = 0 ∧ queries new = 0 ∧ takes new = 0 ∧ gives new = 0 :=
  ⟨by decide,
    ws_broadcast_str_empty_message abcEnv demoState (some 3) (some [0, 104])
      (by intro s h; cases h; decide)⟩

theorem busyEnv_in_bounds (st : State) : registry_in_bounds busyEnv st := by
  intro p _ _
  simp [registry_reply, busyEnv, abcEnv, WS_MAX_CLIENT_COUNT]

/-- Witness of C4: three clients are connected and another task holds the
mutex. -/
theorem ws_broadcast_str_without_lock_witness :
    snapshot busyEnv demoState = [3, 4, 5] ∧
    ∃ new : List Event,
      ws_broadcast_str busyEnv demoState none (some hello) =
        some (0, State.mk demoState.s_current_httpd_handle demoState.s_write_mutex
          (demoState.trace ++ new)) ∧
      sends new = 0 ∧ send_targets new = [] ∧ gives new = 0 :=
  ⟨by decide,
    ws_broadcast_str_without_lock busyEnv demoState none (some hello)
      (by intro m _; simp [busyEnv, pdTRUE, pdFALSE]) (busyEnv_in_bounds demoState)⟩

/-- C6. When a handle is stored and the registry query succeeds with a list
`L` of at most `WS_MAX_CLIENT_COUNT` descriptors, `ws_get_clients` stores in
the leading slots of `out_fds` the entries of `L` that are WebSocket clients
and pass `fd_is_valid`, in the order of `L`, leaves the other slots as they
were, and returns the number of entries stored, at most
`WS_MAX_CLIENT_COUNT`; no write falls outside the array. With a NULL `out_fds`
it returns the same number. -/
theorem ws_get_clients_filters_registry (env : Env) (st : State) (p : Nat) (L : List Int)
    (a : List (Option Int))
    (hp : st.s_current_httpd_handle = some p)
    (hreg : env.httpd_get_client_list (env.deref_handle p) WS_MAX_CLIENT_COUNT = (ESP_OK, L))
    (hL : L.length ≤ WS_MAX_CLIENT_COUNT)
    (ha : a.length = WS_MAX_CLIENT_COUNT) :
    ws_get_clients env st (some a) =
        some (((eligible env (env.deref_handle p) L).length,
            some ((eligible env (env.deref_handle p) L).map some
              ++ a.drop (eligible env (env.deref_handle p) L).length)),
          st.emit (Event.client_list (env.deref_handle p) WS_MAX_CLIENT_COUNT)) ∧
      (eligible env (env.deref_handle p) L).length ≤ WS_MAX_CLIENT_COUNT ∧
      ws_get_clients env st none =
        some (((eligible env (env.deref_handle p) L).length, none),
          st.emit (Event.client_list (env.deref_handle p) WS_MAX_CLIENT_COUNT)) := by
  have hin : registry_in_bounds env st := by
    intro q hq _
    rw [hp] at hq
    cases hq
    simp only [registry_reply, hreg]
    exact hL
  have hsn : snapshot env st = eligible env (env.deref_handle p) L := by
    simp [snapshot, hp, registry_reply, hreg]
  have hqe : query_events env st =
      [Event.client_list (env.deref_handle p) WS_MAX_CLIENT_COUNT] := by
    simp [query_events, hp, registry_reply, hreg]
  refine ⟨?_, ?_, ?_⟩
  · rw [ws_get_clients_array env st a hin ha, hsn, hqe]
    rfl
  · exact le_trans (eligible_length_le _ _ _) hL
  · rw [ws_get_clients_null env st hin, hsn, hqe]
    rfl

/-- Witness of C6: of the candidates 3, 4, 6, 5, 7 the server classifies 6 as
plain HTTP and descriptor 7 is closed; 3, 4 and 5 are stored, in this order. -/
theorem ws_get_clients_filters_registry_witness :
    eligible demoEnv (demoEnv.deref_handle 1) [3, 4, 6, 5, 7] = [3, 4, 5] ∧
    (ws_get_clients demoEnv demoState (some (List.replicate WS_MAX_CLIENT_COUNT none)) =
        some (((eligible demoEnv (demoEnv.deref_handle 1) [3, 4, 6, 5, 7]).length,
            some ((eligible demoEnv (demoEnv.deref_handle 1) [3, 4, 6, 5, 7]).map some
              ++ (List.replicate WS_MAX_CLIENT_COUNT none).drop
                (eligible demoEnv (demoEnv.deref_handle 1) [3, 4, 6, 5, 7]).length)),
          demoState.emit (Event.client_list (demoEnv.deref_handle 1) WS_MAX_CLIENT_COUNT)) ∧
      (eligible demoEnv (demoEnv.deref_handle 1) [3, 4, 6, 5, 7]).length
        ≤ WS_MAX_CLIENT_COUNT ∧
      ws_get_clients demoEnv demoState none =
        some (((eligible demoEnv (demoEnv.deref_handle 1) [3, 4, 6, 5, 7]).length, none),
          demoState.emit (Event.client_list (demoEnv.deref_handle 1) WS_MAX_CLIENT_COUNT))) :=
  ⟨by decide,
    ws_get_clients_filters_registry demoEnv demoState 1 [3, 4, 6, 5, 7]
      (List.replicate WS_MAX_CLIENT_COUNT none) rfl rfl (by decide) (by decide)⟩

/-- C7. `ws_broadcast_frame` gives the write mutex back exactly when it took
it: when the mutex was acquired the last call of the function is the one
`xSemaphoreGive` on it, after every send and whatever the sends returned;
when it was not acquired there is no `xSemaphoreGive` at all. -/
theorem ws_broadcast_frame_gives_mutex_once (env : Env) (st : State) (req : Option Nat)
    (frame : httpd_ws_frame_t)
    (hin : registry_in_bounds env st) :
    ∃ (r : Nat) (body : List Event),
      ws_broadcast_frame env st req frame =
        some (r, State.mk st.s_current_httpd_handle st.s_write_mutex
          (st.trace ++ (body ++
            match acquired env st with
            | some m => [Event.give m]
            | none => []))) ∧
      gives body = 0 := by
  cases hm : st.s_write_mutex with
  | none =>
    obtain ⟨new, hrun, _, hg⟩ := run_not_acquired env st req frame
      (by intro m h; rw [hm] at h; cases h) hin
    refine ⟨0, new, ?_, hg⟩
    rw [hrun]
    simp [acquired, hm]
  | some m =>
    by_cases htake : env.xSemaphoreTake m (env.pdMS_TO_TICKS 1000) = pdTRUE
    · obtain ⟨body, hrun, _, hg⟩ := run_acquired env st req frame m hm htake hin
      refine ⟨ok_sends (body ++ [Event.give m]), body, ?_, hg⟩
      rw [hrun]
      simp [acquired, hm, htake]
    · obtain ⟨new, hrun, _, hg⟩ := run_not_acquired env st req frame
        (by intro m2 h; rw [hm] at h; cases h; exact htake) hin
      refine ⟨0, new, ?_, hg⟩
      rw [hrun]
      simp [acquired, hm, htake]

/-- Witness of C7: the mutex is acquired and one of the two sends fails. -/
theorem ws_broadcast_frame_gives_mutex_once_witness :
    acquired demoEnv demoState = some 1 ∧
    ∃ (r : Nat) (body : List Event),
      ws_broadcast_frame demoEnv demoState (some 3) (text_frame hello) =
        some (r, State.mk demoState.s_current_httpd_handle demoState.s_write_mutex
          (demoState.trace ++ (body ++
            match acquired demoEnv demoState with
            | some m => [Event.give m]
            | none => []))) ∧
      gives body = 0 :=
  ⟨by decide,
    ws_broadcast_frame_gives_mutex_once demoEnv demoState (some 3) (text_frame hello)
      (demoEnv_in_bounds demoState)⟩

theorem failEnv_reply_fails (p : Nat) :
    (failEnv.httpd_get_client_list (failEnv.deref_handle p) WS_MAX_CLIENT_COUNT).1 ≠ ESP_OK := by
  simp [failEnv, ESP_FAIL, ESP_OK]

/-- C8. When the registry query fails, `ws_get_clients` returns 0, leaves
`out_fds` as it was and logs a warning, and the broadcast goes on with no
recipient: `ws_broadcast_str` returns 0 and makes no send, for every string
and originator. -/
theorem ws_get_clients_registry_failure (env : Env) (st : State) (p : Nat)
    (out : Option (List (Option Int))) (req : Option Nat) (str : Option (List Nat))
    (hp : st.s_current_httpd_handle = some p)
    (hfail : (env.httpd_get_client_list (env.deref_handle p) WS_MAX_CLIENT_COUNT).1 ≠ ESP_OK) :
    ws_get_clients env st out =
        some ((0, out),
          (st.emit (Event.client_list (env.deref_handle p) WS_MAX_CLIENT_COUNT)).emit
            (Event.log LogMsg.client_list_failed)) ∧
      ∃ new : List Event,
        ws_broadcast_str env st req str =
          some (0, State.mk st.s_current_httpd_handle st.s_write_mutex (st.trace ++ new)) ∧
        sends new = 0 ∧ send_targets new = [] := by
  constructor
  · unfold ws_get_clients
    rw [hp]
    simp only []
    rw [if_neg hfail]
  · have hin : registry_in_bounds env st := by
      intro q hq hok
      rw [hp] at hq
      cases hq
      exact absurd hok hfail
    have hsn : snapshot env st = [] := by
      unfold snapshot registry_reply
      rw [hp]
      simp only []
      rw [if_neg hfail]
    have hempty : ∃ new : List Event,
        some ((0 : Nat), st.emit (Event.log LogMsg.str_null)) =
          some (0, State.mk st.s_current_httpd_handle st.s_write_mutex (st.trace ++ new)) ∧
        sends new = 0 ∧ send_targets new = [] :=
      ⟨[Event.log LogMsg.str_null], rfl, rfl, rfl⟩
    cases str with
    | none => exact hempty
    | some s =>
      by_cases hs : strlen s = 0
      · unfold ws_broadcast_str
        simp only []
        rw [if_pos hs]
        exact hempty
      · rw [ws_broadcast_str_nonempty env st req s hs]
        by_cases hlock : ∀ m, st.s_write_mutex = some m →
            env.xSemaphoreTake m (env.pdMS_TO_TICKS 1000) ≠ pdTRUE
        · obtain ⟨new, hrun, h1, _⟩ := run_not_acquired env st req (text_frame s) hlock hin
          refine ⟨new, hrun, h1, ?_⟩
          have := sends_eq_length_targets new
          rw [h1] at this
          exact List.length_eq_zero.mp this.symm
        · push_neg at hlock
          obtain ⟨m, hm, htake⟩ := hlock
          obtain ⟨body, hrun, htg, _⟩ := run_acquired env st req (text_frame s) m hm htake hin
          rw [hsn, List.filter_nil] at htg
          have hsends : sends (body ++ [Event.give m]) = 0 := by
            rw [sends_eq_length_targets, htg]
            rfl
          have hok : ok_sends (body ++ [Event.give m]) = 0 := by
            have := ok_add_failed (body ++ [Event.give m])
            omega
          refine ⟨body ++ [Event.give m], ?_, hsends, htg⟩
          rw [hrun, hok]

/-- Witness of C8: three clients are connected, the mutex is free and the
registry query returns `ESP_FAIL`. -/
theorem ws_get_clients_registry_failure_witness :
    ws_get_clients failEnv demoState (some (List.replicate WS_MAX_CLIENT_COUNT none)) =
        some ((0, some (List.replicate WS_MAX_CLIENT_COUNT none)),
          (demoState.emit
            (Event.client_list (failEnv.deref_handle 1) WS_MAX_CLIENT_COUNT)).emit
            (Event.log LogMsg.client_list_failed)) ∧
      ∃ new : List Event,
        ws_broadcast_str failEnv demoState none (some hello) =
          some (0, State.mk demoState.s_current_httpd_handle demoState.s_write_mutex
            (demoState.trace ++ new)) ∧
        sends new = 0 ∧ send_targets new = [] :=
  ws_get_clients_registry_failure failEnv demoState 1
    (some (List.replicate WS_MAX_CLIENT_COUNT none)) none (some hello) rfl
    (failEnv_reply_fails 1)

/-! ## Initialisation -/

theorem loop_events_confined (env : Env) (p : Nat) (mutex : Option Nat)
    (frame : httpd_ws_frame_t) (req_fd : Int) :
    ∀ (xs : List Int) (k : Nat),
      ∀ e ∈ loop_events env (env.deref_handle p) frame req_fd xs k,
        Event.confined env (some p) mutex e = true := by
  intro xs
  induction xs with
  | nil => intro k e he; simp [loop_events] at he
  | cons fd xs ih =>
    intro k e he
    unfold loop_events at he
    by_cases h : fd = req_fd
    · rw [if_pos h] at he
      exact ih k e he
    · rw [if_neg h] at he
      rcases List.mem_cons.mp he with h1 | he
      · subst h1; simp [Event.confined]
      rcases List.mem_cons.mp he with h1 | he
      · subst h1; simp [Event.confined]
      split at he
      · exact ih (k + 1) e he
      · rcases List.mem_cons.mp he with h1 | he
        · subst h1; simp [Event.confined]
        · exact ih (k + 1) e he

theorem frame_events_confined (env : Env) (st : State) (req : Option Nat)
    (frame : httpd_ws_frame_t) :
    ∀ e ∈ query_events env st ++ locked_events env st req frame,
      Event.confined env st.s_current_httpd_handle st.s_write_mutex e = true := by
  intro e he
  rcases List.mem_append.mp he with hq | hl
  · unfold query_events at hq
    cases hp : st.s_current_httpd_handle with
    | none =>
      rw [hp] at hq
      simp only [List.mem_singleton] at hq
      subst hq
      rfl
    | some p =>
      rw [hp] at hq
      simp only [] at hq
      split at hq
      · simp only [List.mem_singleton] at hq
        subst hq
        simp [Event.confined]
      · simp only [List.mem_cons, List.mem_singleton, List.not_mem_nil, or_false] at hq
        rcases hq with h1 | h1 <;> subst h1 <;> simp [Event.confined]
  · unfold locked_events at hl
    cases hm : st.s_write_mutex with
    | none =>
      rw [hm] at hl
      simp only [List.mem_singleton] at hl
      subst hl
      rfl
    | some m =>
      rw [hm] at hl
      simp only [] at hl
      split at hl
      · rcases List.mem_cons.mp hl with h1 | hl
        · subst h1; simp [Event.confined]
        rcases List.mem_append.mp hl with hl | h1
        · cases hp : st.s_current_httpd_handle with
          | none =>
            have hsn : snapshot env st = [] := by simp [snapshot, hp]
            rw [hsn] at hl
            simp [loop_events] at hl
          | some p =>
            have hcur : current_hd env st = env.deref_handle p := by simp [current_hd, hp]
            rw [hcur] at hl
            exact loop_events_confined env p (some m) frame _ _ _ e hl
        · simp only [List.mem_singleton] at h1
          subst h1
          simp [Event.confined]
      · simp only [List.mem_cons, List.mem_singleton, List.not_mem_nil, or_false] at hl
        rcases hl with h1 | h1 <;> subst h1 <;> simp [Event.confined]

theorem noMemEnv_in_bounds (st : State) : registry_in_bounds noMemEnv st := by
  intro p _ _
  simp [registry_reply, noMemEnv, abcEnv, WS_MAX_CLIENT_COUNT]

/-- C9, as the code has it. `ws_helper_init` always returns `ESP_OK`, stores
the pointer it is given and replaces the write mutex by the result of
`xSemaphoreCreateMutex`, which is NULL when the creation fails. As long as the
two variables keep these values, every call of a broadcast goes through the
new handle and the new mutex only, and when the creation failed a broadcast
returns 0 without a send. -/
theorem ws_helper_init_replaces_state (env : Env) (st : State) (handle : Option Nat)
    (tr : List Event) (req : Option Nat) (str : Option (List Nat))
    (hin : registry_in_bounds env
      (State.mk handle (env.xSemaphoreCreateMutex (creates st.trace)) tr)) :
    (ws_helper_init env st handle).1 = ESP_OK ∧
      (ws_helper_init env st handle).2.s_current_httpd_handle = handle ∧
      (ws_helper_init env st handle).2.s_write_mutex =
        env.xSemaphoreCreateMutex (creates st.trace) ∧
      (ws_helper_init env st handle).2.trace =
        st.trace ++ [Event.create_mutex (env.xSemaphoreCreateMutex (creates st.trace))] ∧
      ∃ (r : Nat) (new : List Event),
        ws_broadcast_str env
            (State.mk handle (env.xSemaphoreCreateMutex (creates st.trace)) tr) req str =
          some (r, State.mk handle (env.xSemaphoreCreateMutex (creates st.trace))
            (tr ++ new)) ∧
        (∀ e ∈ new, Event.confined env handle
          (env.xSemaphoreCreateMutex (creates st.trace)) e = true) ∧
        (env.xSemaphoreCreateMutex (creates st.trace) = none → r = 0 ∧ sends new = 0) := by
  refine ⟨rfl, rfl, rfl, rfl, ?_⟩
  generalize env.xSemaphoreCreateMutex (creates st.trace) = created at hin ⊢
  have hempty : ∃ (r : Nat) (new : List Event),
      some ((0 : Nat), (State.mk handle created tr).emit (Event.log LogMsg.str_null)) =
        some (r, State.mk handle created (tr ++ new)) ∧
      (∀ e ∈ new, Event.confined env handle created e = true) ∧
      (created = none → r = 0 ∧ sends new = 0) := by
    refine ⟨0, [Event.log LogMsg.str_null], rfl, ?_, fun _ => ⟨rfl, rfl⟩⟩
    intro e he
    rw [List.mem_singleton] at he
    subst he
    rfl
  cases str with
  | none => exact hempty
  | some s =>
    by_cases hs : strlen s = 0
    · unfold ws_broadcast_str
      simp only []
      rw [if_pos hs]
      exact hempty
    · refine ⟨_, _, ws_broadcast_str_run env _ req s hs hin,
        frame_events_confined env (State.mk handle created tr) req (text_frame s), ?_⟩
      intro hnone
      subst hnone
      have hq := sends_query_events env (State.mk handle none tr)
      unfold sends at hq ⊢
      simp [expected_successes, locked_events, List.countP_append, hq, Event.isSend]

/-- Witness of C9 as amended: a second initialisation, with handle pointer 2,
of a helper that was initialised with handle pointer 1 and mutex 1. -/
theorem ws_helper_init_replaces_state_witness :
    (ws_helper_init abcEnv demoState (some 2)).1 = ESP_OK ∧
      (ws_helper_init abcEnv demoState (some 2)).2.s_current_httpd_handle = some 2 ∧
      (ws_helper_init abcEnv demoState (some 2)).2.s_write_mutex =
        abcEnv.xSemaphoreCreateMutex (creates demoState.trace) ∧
      (ws_helper_init abcEnv demoState (some 2)).2.trace =
        demoState.trace ++
          [Event.create_mutex (abcEnv.xSemaphoreCreateMutex (creates demoState.trace))] ∧
      ∃ (r : Nat) (new : List Event),
        ws_broadcast_str abcEnv
            (State.mk (some 2) (abcEnv.xSemaphoreCreateMutex (creates demoState.trace)) [])
            none (some hello) =
          some (r, State.mk (some 2) (abcEnv.xSemaphoreCreateMutex (creates demoState.trace))
            ([] ++ new)) ∧
        (∀ e ∈ new, Event.confined abcEnv (some 2)
          (abcEnv.xSemaphoreCreateMutex (creates demoState.trace)) e = true) ∧
        (abcEnv.xSemaphoreCreateMutex (creates demoState.trace) = none →
          r = 0 ∧ sends new = 0) :=
  ws_helper_init_replaces_state abcEnv demoState (some 2) [] none (some hello)
    (abcEnv_in_bounds _)

/-- C9 fails as stated: with no memory left for a mutex `ws_helper_init`
still returns `ESP_OK`, the write mutex it leaves is NULL, and the next
broadcast to the three connected clients returns 0 without a single send. -/
theorem ws_helper_init_ok_without_mutex :
    (ws_helper_init noMemEnv freshState (some 1)).1 = ESP_OK ∧
      (ws_helper_init noMemEnv freshState (some 1)).2.s_write_mutex = none ∧
      snapshot noMemEnv (ws_helper_init noMemEnv freshState (some 1)).2 = [3, 4, 5] ∧
      ws_broadcast_str noMemEnv (ws_helper_init noMemEnv freshState (some 1)).2 none
          (some hello) =
        some (0, State.mk (some 1) none
          [Event.create_mutex none, Event.client_list 101 10,
           Event.log LogMsg.mutex_timeout]) := by
  decide

end WsHelper
